import Mathlib

/-!
Verification of the image-URI resolver (`sagemaker/image_uris.py`) and the
Lambda workflow step (`sagemaker/workflow/lambda_step.py`).

The Python modules are shallowly embedded: JSON configuration values become
the inductive `JVal`, Python `None`-able strings become `Option String`,
raised exceptions become the error side of `Except`.  `ValueError`s raised by
`_validate_arg` and its callers are the structured `InvalidArgument` errors of
the specification; every other failure mode (missing config file, `KeyError`,
`AttributeError`, `UnboundLocalError`, …) is modelled by the unstructured
`RErr.crash` constructor.
-/

instance {ε α : Type} [DecidableEq ε] [DecidableEq α] : DecidableEq (Except ε α) := fun a b => by
  cases a <;> cases b
  case error.error e f =>
    exact if h : e = f then isTrue (by rw [h]) else isFalse (by simp [h])
  case error.ok e f => exact isFalse (by simp)
  case ok.error e f => exact isFalse (by simp)
  case ok.ok e f =>
    exact if h : e = f then isTrue (by rw [h]) else isFalse (by simp [h])

namespace ImageUris

/-- JSON configuration values as they appear in the per-framework config
files: strings, arrays of strings (`scope`, `py_versions`, `processors`),
and objects.  Objects are association lists in file order (Python dicts
preserve insertion order). -/
inductive JVal where
  | s (v : String)
  | arr (items : List String)
  | obj (entries : List (String × JVal))

/-- First-match association-list lookup (Python dict access). -/
def jlookup (k : String) : List (String × JVal) → Option JVal
  | [] => none
  | (k', v) :: t => if k' == k then some v else jlookup k t

/-- `d.get(k)` / `d[k]` on a JSON object; `none` for missing keys or
non-objects. -/
def JVal.lookup (j : JVal) (k : String) : Option JVal :=
  match j with
  | .obj kvs => jlookup k kvs
  | _ => none

/-- `list(d.keys())` on a JSON object. -/
def JVal.keys (j : JVal) : List String :=
  match j with
  | .obj kvs => kvs.map (fun kv => kv.1)
  | _ => []

/-- Python truthiness of a JSON value: empty strings, arrays and objects are
falsy. -/
def JVal.truthy : JVal → Bool
  | .s v => v != ""
  | .arr l => !l.isEmpty
  | .obj l => !l.isEmpty

/-- Python truthiness of an optional string (`None` and `""` are falsy). -/
def truthyOpt (o : Option String) : Bool :=
  match o with
  | some s => s != ""
  | none => false

/-- Python `str.startswith`. -/
def strStarts (s p : String) : Bool := p.toList.isPrefixOf s.toList

/-- Python `str(x)` on an optional string: `None` formats as `"None"`
(as it does inside f-strings and `str.format`). -/
def pyStr (o : Option String) : String :=
  match o with
  | some s => s
  | none => "None"

/-- Errors raised by the resolver.  `invalidArg` is the structured
`InvalidArgument` error of `_validate_arg`; the remaining `ValueError`s of
the module get their own constructors; `crash` stands for any unstructured
failure (`KeyError`, `AttributeError`, `UnboundLocalError`, missing config
file, …). -/
inductive RErr where
  | invalidArg (argName : String) (arg : Option String) (options : List String)
  | trainingCompilerUnsupported
  | invalidAcceleratorType (t : String)
  | emptyInstanceType
  | invalidInstanceType (t : String)
  | crash (reason : String)
deriving DecidableEq

/-- Membership of a possibly-`None` Python value in a list of strings
(`arg in available_options`; `None` is never a member). -/
def optMem (arg : Option String) (options : List String) : Bool :=
  match arg with
  | some a => options.contains a
  | none => false

/-- `_validate_arg(arg, available_options, arg_name)`: raises `ValueError`
when `arg` is not among the options. -/
def _validate_arg (arg : Option String) (available_options : List String)
    (argName : String) : Except RErr Unit :=
  if optMem arg available_options then .ok ()
  else .error (.invalidArg argName arg available_options)

/-- The message text of the `ValueError` raised by `_validate_arg`. -/
def invalidArgMessage (argName : String) (arg : Option String)
    (options : List String) : String :=
  "Unsupported " ++ argName ++ ": " ++ pyStr arg ++
    ". You may need to upgrade your SDK version (pip install -U sagemaker) for newer "
    ++ argName ++ "s. Supported " ++ argName ++ "(s): " ++
    String.intercalate ", " options ++ "."

/-- The message of each error raised by the module, following the source's
format strings. -/
def RErr.message : RErr → String
  | .invalidArg n a o => invalidArgMessage n a o
  | .trainingCompilerUnsupported =>
      "Unsupported Configuration: Training Compiler is only supported with HuggingFace"
  | .invalidAcceleratorType t =>
      "Invalid SageMaker Elastic Inference accelerator type: " ++ t ++
        ". See https://docs.aws.amazon.com/sagemaker/latest/dg/ei.html"
  | .emptyInstanceType =>
      "Empty SageMaker instance type. For options, see: https://aws.amazon.com/sagemaker/pricing/instance-types"
  | .invalidInstanceType t =>
      "Invalid SageMaker instance type: " ++ t ++
        ". For options, see: https://aws.amazon.com/sagemaker/pricing/instance-types"
  | .crash m => m

/-- Characters matched by `[a-z\d]` in the instance-type regex. -/
def isLowerDigit (c : Char) : Bool :=
  ('a' ≤ c && c ≤ 'z') || ('0' ≤ c && c ≤ '9')

/-- Characters matched by `\w` (ASCII). -/
def isWordChar (c : Char) : Bool :=
  ('a' ≤ c && c ≤ 'z') || ('A' ≤ c && c ≤ 'Z') || ('0' ≤ c && c ≤ '9') || c == '_'

/-- `re.match(r"^ml[\._]([a-z\d]+)\.?\w*$", s)`, returning the captured
family.  The capture group is greedy, so the family is the longest run of
`[a-z0-9]` after the `ml.`/`ml_` marker; the remainder must be an optional
dot followed by word characters.  (Whenever a shorter capture would let the
pattern match, the greedy capture matches as well, so this function is the
exact match semantics.) -/
def mlFamilyMatch (s : String) : Option String :=
  match s.toList with
  | 'm' :: 'l' :: sep :: rest =>
    if sep == '.' || sep == '_' then
      let fam := rest.takeWhile isLowerDigit
      let rem := rest.dropWhile isLowerDigit
      if fam.isEmpty then none
      else
        let rem2 := match rem with
          | '.' :: t => t
          | _ => rem
        if rem2.all isWordChar then some (String.mk fam) else none
    else none
  | _ => none

/-- `_processor(instance_type, available_processors)` from
`image_uris.py`.  `instance_type = ""` stands for Python `None` (both are
falsy and the string operations are only reached on truthy values);
an absent processor list is the empty list (`None` and `[]` are equally
falsy). -/
def _processor (instance_type : String) (available_processors : List String) :
    Except RErr (Option String) :=
  if available_processors.isEmpty then .ok none
  else if available_processors.length == 1 && instance_type == "" then
    .ok (some (available_processors.headD ""))
  else if instance_type == "" then .error .emptyInstanceType
  else
    let pOpt : Option String :=
      if strStarts instance_type "local" then
        some (if instance_type == "local" then "cpu" else "gpu")
      else
        match mlFamilyMatch instance_type with
        | some family =>
          some
            (if available_processors.contains family then family
             else if strStarts family "inf" then "inf"
             else if family.toList.headD ' ' == 'g' || family.toList.headD ' ' == 'p' then "gpu"
             else "cpu")
        | none => none
    match pOpt with
    | none => .error (.invalidInstanceType instance_type)
    | some p =>
      match _validate_arg (some p) available_processors "processor" with
      | .error e => .error e
      | .ok _ => .ok (some p)

example : _processor "ml.p3.2xlarge" ["cpu", "gpu"] = .ok (some "gpu") := by decide
example : _processor "ml.c5.xlarge" ["cpu", "gpu"] = .ok (some "cpu") := by decide
example : _processor "ml.inf1.xlarge" ["cpu", "gpu", "inf"] = .ok (some "inf") := by decide
example : _processor "local" ["cpu", "gpu"] = .ok (some "cpu") := by decide
example : _processor "local_gpu" ["cpu", "gpu"] = .ok (some "gpu") := by decide
example : _processor "localhost" ["cpu", "gpu"] = .ok (some "gpu") := by decide
example : _processor "p3.2xlarge" ["cpu", "gpu"]
    = .error (.invalidInstanceType "p3.2xlarge") := by decide
example : _processor "ml.c5.xlarge" ["c5", "cpu", "gpu"] = .ok (some "c5") := by decide
example : mlFamilyMatch "ml_p4d" = some "p4d" := by decide
example : mlFamilyMatch "ml.p4d.24xlarge" = some "p4d" := by decide

/-- `HUGGING_FACE_FRAMEWORK` constant of the module. -/
def HUGGING_FACE_FRAMEWORK : String := "huggingface"

/-- Modelled from the spec: `sagemaker.spark.defaults.SPARK_NAME`, the
sentinel framework type with no runtime-version requirement (its defining
module is not under `src/`; the spec only states that such a sentinel
exists and that it skips Python-version defaulting). -/
def SPARK_NAME : String := "spark"

/-- Arguments of `retrieve`.  `instance_type = ""` and `distribution = []`
stand for Python `None` (indistinguishable from the falsy values in every
use the module makes of them); `distribution` is the key set of the
distribution dict; `training_compiler_config` records whether the flag is
set (`≠ None`). -/
structure RetrieveArgs where
  framework : String
  region : String
  version : Option String := none
  py_version : Option String := none
  instance_type : String := ""
  accelerator_type : Option String := none
  image_scope : Option String := none
  container_version : Option String := none
  distribution : List String := []
  base_framework_version : Option String := none
  training_compiler_config : Bool := false

/-- `config_for_framework`: loads the JSON config file for the framework.
The file system is the externally supplied table `tbl`; a missing file is
an unstructured failure. -/
def config_for_framework (tbl : String → Option JVal) (framework : String) :
    Except RErr JVal :=
  match tbl framework with
  | some c => .ok c
  | none => .error (.crash ("No such file or directory: image_uri_config/" ++ framework ++ ".json"))

/-- `config.get("scope", config.keys())` with the shape check that the
`scope` entry is a list of strings. -/
def scopesOf (config : JVal) : Except RErr (List String) :=
  match config.lookup "scope" with
  | some (.arr l) => .ok l
  | some _ => .error (.crash "scope entry is not a list of strings")
  | none => .ok config.keys

/-- `set(available_scopes) == {"training", "inference"}`. -/
def setIsTrainingInference (l : List String) : Bool :=
  l.contains "training" && l.contains "inference" &&
    l.all (fun s => s == "training" || s == "inference")

/-- `_validate_accelerator_type` inlined with the accelerator override of
`_config_for_framework_and_scope`: a truthy accelerator type must start
with `ml.eia` or be the local-notebook sentinel, and forces the image
scope to `eia`. -/
def acceleratorScope (image_scope : Option String) (accelerator_type : Option String) :
    Except RErr (Option String) :=
  if truthyOpt accelerator_type then
    match accelerator_type with
    | some a =>
      if strStarts a "ml.eia" || a == "local_sagemaker_notebook" then .ok (some "eia")
      else .error (.invalidAcceleratorType a)
    | none => .ok image_scope
  else .ok image_scope

/-- `_config_for_framework_and_scope(framework, image_scope, accelerator_type)`. -/
def _config_for_framework_and_scope (tbl : String → Option JVal) (framework : String)
    (image_scope : Option String) (accelerator_type : Option String) :
    Except RErr JVal :=
  match config_for_framework tbl framework with
  | .error e => .error e
  | .ok config =>
    match acceleratorScope image_scope accelerator_type with
    | .error e => .error e
    | .ok scope1 =>
      match scopesOf config with
      | .error e => .error e
      | .ok available_scopes =>
        let scope2 :=
          if available_scopes.length == 1 then some (available_scopes.headD "")
          else scope1
        let scope3 :=
          if !truthyOpt scope2 && (config.lookup "scope").isSome
              && setIsTrainingInference available_scopes then
            some (available_scopes.headD "")
          else scope2
        match _validate_arg scope3 available_scopes "image scope" with
        | .error e => .error e
        | .ok _ =>
          if (config.lookup "scope").isSome then .ok config
          else
            match scope3 with
            | some sc =>
              (match config.lookup sc with
               | some c => .ok c
               | none => .error (.crash "missing scope entry"))
            | none => .error (.crash "missing image scope")

/-- `_validate_version_and_set_if_needed(version, config, framework)`. -/
def _validate_version_and_set_if_needed (version : Option String) (config : JVal)
    (framework : String) : Except RErr String :=
  match config.lookup "versions" with
  | some (.obj vkvs) =>
    let available_versions := vkvs.map (Prod.fst)
    match (match config.lookup "version_aliases" with
           | some (.obj akvs) => Except.ok (akvs.map (Prod.fst))
           | some _ => Except.error (RErr.crash "version_aliases is not an object")
           | none => Except.ok ([] : List String)) with
    | .error e => .error e
    | .ok aliased_versions =>
      if available_versions.length == 1 && !optMem version aliased_versions then
        .ok (available_versions.headD "")
      else
        match _validate_arg version (available_versions ++ aliased_versions)
            (framework ++ " version") with
        | .error e => .error e
        | .ok _ =>
          match version with
          | some v => .ok v
          | none => .error (.crash "unreachable: validated version is absent")
  | some _ => .error (.crash "versions is not an object")
  | none => .error (.crash "KeyError: versions")

/-- `_version_for_config(version, config)`: resolves a version alias to its
canonical version. -/
def _version_for_config (version : String) (config : JVal) : Except RErr String :=
  match config.lookup "version_aliases" with
  | some (.obj akvs) =>
    (match jlookup version akvs with
     | some (.s v) => .ok v
     | some _ => .error (.crash "version alias is not a string")
     | none => .ok version)
  | some _ => .error (.crash "version_aliases is not an object")
  | none => .ok version

/-- `_registry_from_region(region, registry_dict)`. -/
def _registry_from_region (region : String) (registry_dict : JVal) :
    Except RErr String :=
  match _validate_arg (some region) registry_dict.keys "region" with
  | .error e => .error e
  | .ok _ =>
    match registry_dict.lookup region with
    | some (.s r) => .ok r
    | some _ => .error (.crash "registry entry is not a string")
    | none => .error (.crash "unreachable: validated region is absent")

/-- `_validate_py_version_and_set_if_needed(py_version, version_config, framework)`. -/
def _validate_py_version_and_set_if_needed (py_version : Option String)
    (version_config : JVal) (framework : String) : Except RErr (Option String) :=
  match (if (version_config.lookup "repository").isSome then
           match version_config.lookup "py_versions" with
           | some (.arr l) => Except.ok l
           | some _ => Except.error (RErr.crash "py_versions is not a list")
           | none => Except.ok ([] : List String)
         else Except.ok version_config.keys) with
  | .error e => .error e
  | .ok available_versions =>
    if available_versions.isEmpty then .ok none
    else if py_version == none && SPARK_NAME == framework then .ok none
    else if py_version == none && available_versions.length == 1 then
      .ok (some (available_versions.headD ""))
    else
      match _validate_arg py_version available_versions "Python version" with
      | .error e => .error e
      | .ok _ => .ok py_version

/-- The nested base-framework-version step of `retrieve` for the
huggingface framework (lines 93–100): resolve the caller-supplied base
framework version through the version-level alias table and descend into
its entry.  When the version config has no truthy `version_aliases`
entry, the Python code raises `UnboundLocalError` on
`full_base_framework_version`. -/
def hfBaseConfig (version_config : JVal) (base_framework_version : Option String) :
    Except RErr JVal :=
  match (if (match version_config.lookup "version_aliases" with
             | some va => va.truthy
             | none => false) then
           match base_framework_version with
           | some b =>
             (match (version_config.lookup "version_aliases").bind (fun va => va.lookup b) with
              | some (.s v) => Except.ok (some v)
              | some _ => Except.error (RErr.crash "base framework alias is not a string")
              | none => Except.ok (some b))
           | none => Except.ok (none : Option String)
         else Except.error (RErr.crash
           "UnboundLocalError: full base framework version referenced before assignment")) with
  | .error e => .error e
  | .ok full =>
    match _validate_arg full version_config.keys "base framework" with
    | .error e => .error e
    | .ok _ =>
      match full with
      | some f =>
        (match version_config.lookup f with
         | some vc => .ok vc
         | none => .error (.crash "unreachable: validated base framework is absent"))
      | none => .error (.crash "unreachable: validated base framework is None")

/-- `re.compile("^(pytorch|tensorflow)(.*)$").match(base_framework_version)`
with `.group(2)`: the part of the base framework version after the
`pytorch`/`tensorflow` token; `none` when the pattern does not match (in
Python: `AttributeError` on the `None` match, or `TypeError` when the
argument itself is `None`). -/
def hfPtOrTf (base_framework_version : Option String) : Option String :=
  match base_framework_version with
  | some b =>
    if strStarts b "pytorch" then some (b.drop 7)
    else if strStarts b "tensorflow" then some (b.drop 10)
    else none
  | none => none

/-- The huggingface tag-prefix computation of `retrieve` (lines 117–129):
`f"{pt_or_tf_version}-transformers{_version}"` where `_version` is the
resolved version for the two trcomp repositories and the original
caller-supplied version otherwise (Python formats `None` as `"None"`). -/
def hfTagPre (base_framework_version : Option String) (original_version : Option String)
    (version : String) (repo : String) : Except RErr String :=
  match hfPtOrTf base_framework_version with
  | none => .error (.crash "base framework version does not match (pytorch|tensorflow)(.*)")
  | some pt =>
    let v : Option String :=
      if repo == "huggingface-pytorch-trcomp-training"
          || repo == "huggingface-tensorflow-trcomp-training" then some version
      else original_version
    .ok (pt ++ "-transformers" ++ pyStr v)

/-- `config.get("processors") or version_config.get("processors")` with the
shape check that a truthy value is a list of strings. -/
def processorsArg (config version_config : JVal) : Except RErr (List String) :=
  match config.lookup "processors" with
  | some (.arr (a :: l)) => .ok (a :: l)
  | some (.arr []) =>
    (match version_config.lookup "processors" with
     | some (.arr l) => .ok l
     | some _ => .error (.crash "processors is not a list")
     | none => .ok [])
  | some _ => .error (.crash "processors is not a list")
  | none =>
    match version_config.lookup "processors" with
    | some (.arr l) => .ok l
    | some _ => .error (.crash "processors is not a list")
    | none => .ok []

/-- Lines 113–115 of `retrieve`: when the version config declares a truthy
`container_version` table, the caller-supplied container version is
replaced with the table entry for the resolved processor (a `KeyError`
crash when the processor is absent from the table). -/
def containerVersionArg (version_config : JVal) (processor : Option String)
    (container_version : Option String) : Except RErr (Option String) :=
  match version_config.lookup "container_version" with
  | some cv =>
    if cv.truthy then
      match processor with
      | some p =>
        (match cv.lookup p with
         | some (.s v) => .ok (some v)
         | some _ => .error (.crash "container_version entry is not a string")
         | none => .error (.crash "KeyError: processor not in container_version"))
      | none => .error (.crash "KeyError: None not in container_version")
    else .ok container_version
  | none => .ok container_version

/-- The tag-prefix selection of `retrieve` (lines 117–132): the huggingface
computation for the composite framework, else
`version_config.get("tag_prefix", version)`. -/
def tagPreArg (framework : String) (version_config : JVal) (version : String)
    (base_framework_version original_version : Option String) (repo : String) :
    Except RErr String :=
  if framework == HUGGING_FACE_FRAMEWORK then
    hfTagPre base_framework_version original_version version repo
  else
    match version_config.lookup "tag_prefix" with
    | some (.s t) => .ok t
    | some _ => .error (.crash "tag value is not a string")
    | none => .ok version

/-- `_format_tag(tag_prefix, processor, py_version, container_version)`:
join the truthy members with `-`. -/
def _format_tag (tagPre processor py_version container_version : Option String) : String :=
  String.intercalate "-"
    (([tagPre, processor, py_version, container_version].filterMap id).filter
      (fun s => s != ""))

/-- `_should_auto_select_container_version(instance_type, distribution)`. -/
def _should_auto_select_container_version (instance_type : String)
    (distribution : List String) : Bool :=
  (instance_type != "" &&
    (match mlFamilyMatch instance_type with
     | some f => f == "p4d"
     | none => false)) ||
  distribution.contains "smdistributed"

/-- The hardcoded legacy `container_versions` table of `retrieve`
(lines 142–155). -/
def containerVersionsTable : List (String × String) :=
  [("tensorflow-2.3-gpu-py37", "cu110-ubuntu18.04-v3"),
   ("tensorflow-2.3.1-gpu-py37", "cu110-ubuntu18.04"),
   ("tensorflow-2.3.2-gpu-py37", "cu110-ubuntu18.04"),
   ("tensorflow-1.15-gpu-py37", "cu110-ubuntu18.04-v8"),
   ("tensorflow-1.15.4-gpu-py37", "cu110-ubuntu18.04"),
   ("tensorflow-1.15.5-gpu-py37", "cu110-ubuntu18.04"),
   ("mxnet-1.8-gpu-py37", "cu110-ubuntu16.04-v1"),
   ("mxnet-1.8.0-gpu-py37", "cu110-ubuntu16.04"),
   ("pytorch-1.6-gpu-py36", "cu110-ubuntu18.04-v3"),
   ("pytorch-1.6.0-gpu-py36", "cu110-ubuntu18.04"),
   ("pytorch-1.6-gpu-py3", "cu110-ubuntu18.04-v3"),
   ("pytorch-1.6.0-gpu-py3", "cu110-ubuntu18.04")]

/-- First-match lookup in a string-to-string table (`key in dict` /
`dict[key]`). -/
def tableLookup (k : String) : List (String × String) → Option String
  | [] => none
  | (k', v) :: t => if k' == k then some v else tableLookup k t

/-- The auto-select container-version correction of `retrieve`
(lines 141–158): when `_should_auto_select_container_version` holds and
`"-".join([framework, tag])` is a key of the legacy table, append the
table's suffix to the tag. -/
def _autoSelectTag (framework tag instance_type : String)
    (distribution : List String) : String :=
  if _should_auto_select_container_version instance_type distribution then
    match tableLookup (framework ++ "-" ++ tag) containerVersionsTable with
    | some suffix => tag ++ "-" ++ suffix
    | none => tag
  else tag

/-- Lines 160–163 of `retrieve`: append `:{tag}` to the repository when the
tag is truthy and instantiate `ECR_URI_TEMPLATE =
"{registry}.dkr.{hostname}/{repository}"`. -/
def _finalize (registry hostname repository tag : String) : String :=
  let repo2 := if tag != "" then repository ++ ":" ++ tag else repository
  registry ++ ".dkr." ++ hostname ++ "/" ++ repo2

/-- Line 103 of `retrieve`:
`version_config = version_config.get(py_version) or version_config` —
descend into the runtime-version-specific sub-config when a truthy one
exists. -/
def pyDescend (version_config : JVal) (py_version : Option String) : JVal :=
  match py_version with
  | some p =>
    (match version_config.lookup p with
     | some v => if v.truthy then v else version_config
     | none => version_config)
  | none => version_config

/-- Lines 89–163 of `retrieve` after the version has been resolved:
alias resolution, version-config selection, the huggingface nesting,
Python-version resolution, registry/hostname/repository extraction,
processor resolution, container-version override, tag formatting, the
auto-select correction and the final URI assembly.  `ecrHost` is the
external region-to-ECR-hostname resolver. -/
def retrieveWithVersion (config : JVal) (ecrHost : String → String)
    (args : RetrieveArgs) (version : String) : Except RErr String :=
  match _version_for_config version config with
  | .error e => .error e
  | .ok vkey =>
    match (config.lookup "versions").bind (fun vs => vs.lookup vkey) with
    | none => .error (.crash "KeyError: version entry is absent")
    | some vc0 =>
      match (if args.framework == HUGGING_FACE_FRAMEWORK then
               hfBaseConfig vc0 args.base_framework_version
             else .ok vc0) with
      | .error e => .error e
      | .ok vc1 =>
        match _validate_py_version_and_set_if_needed args.py_version vc1 args.framework with
        | .error e => .error e
        | .ok py_version =>
          let vc2 := pyDescend vc1 py_version
          match vc2.lookup "registries" with
          | none => .error (.crash "KeyError: registries")
          | some rd =>
            match _registry_from_region args.region rd with
            | .error e => .error e
            | .ok registry =>
              let hostname := ecrHost args.region
              match vc2.lookup "repository" with
              | some (JVal.s repo) =>
                (match processorsArg config vc2 with
                 | .error e => .error e
                 | .ok available_processors =>
                   match _processor args.instance_type available_processors with
                   | .error e => .error e
                   | .ok processor =>
                     match containerVersionArg vc2 processor args.container_version with
                     | .error e => .error e
                     | .ok container_version =>
                       match tagPreArg args.framework vc2 version
                           args.base_framework_version args.version repo with
                       | .error e => .error e
                       | .ok tagp =>
                         let tag := _format_tag (some tagp) processor py_version container_version
                         let tag2 := _autoSelectTag args.framework tag args.instance_type
                           args.distribution
                         .ok (_finalize registry hostname repo tag2))
              | some _ => .error (.crash "repository is not a string")
              | none => .error (.crash "KeyError: repository")

/-- `retrieve` after the framework config has been selected: version
validation then the remainder. -/
def retrieveWithConfig (config : JVal) (ecrHost : String → String)
    (args : RetrieveArgs) : Except RErr String :=
  match _validate_version_and_set_if_needed args.version config args.framework with
  | .error e => .error e
  | .ok version => retrieveWithVersion config ecrHost args version

/-- Lines 79–88 of `retrieve`: the training-compiler gating and framework
config selection. -/
def frameworkConfig (tbl : String → Option JVal) (args : RetrieveArgs) :
    Except RErr JVal :=
  if args.training_compiler_config == false then
    _config_for_framework_and_scope tbl args.framework args.image_scope args.accelerator_type
  else if args.framework == HUGGING_FACE_FRAMEWORK then
    _config_for_framework_and_scope tbl (args.framework ++ "-training-compiler")
      args.image_scope args.accelerator_type
  else .error .trainingCompilerUnsupported

/-- `retrieve(framework, region, ...)`: the full resolver.  `tbl` is the
external per-framework config-file table and `ecrHost` the external
region-to-hostname resolver. -/
def retrieve (tbl : String → Option JVal) (ecrHost : String → String)
    (args : RetrieveArgs) : Except RErr String :=
  match frameworkConfig tbl args with
  | .error e => .error e
  | .ok config => retrieveWithConfig config ecrHost args

end ImageUris

namespace LambdaStepMod

/-- Boolean infix-of-characters test, used for Python's
`"marker" in str(error)` substring check. -/
def charsInfix (sub : List Char) : List Char → Bool
  | [] => sub.isEmpty
  | c :: t => sub.isPrefixOf (c :: t) || charsInfix sub t

/-- Python `sub in s` on strings. -/
def strContains (s sub : String) : Bool := charsInfix sub.toList s.toList

/-- ASCII lowercase of one character (`str.lower` on the region string). -/
def asciiLowerChar (c : Char) : Char :=
  if 'A' ≤ c && c ≤ 'Z' then Char.ofNat (c.toNat + 32) else c

/-- ASCII `str.lower`. -/
def asciiLower (s : String) : String := String.mk (s.toList.map asciiLowerChar)

/-- The external `sagemaker.lambda_helper.Lambda` collaborator of
`LambdaStep` (its module is not under `src/`; per the spec it exposes
`function_arn` (possibly pre-populated), `function_name`, a session with
`account_id()` and a region, and `create()` which returns the new
function's ARN or raises).  `create_result` records the outcome of the
one external `create()` call. -/
structure LambdaFunc where
  function_arn : Option String
  function_name : String
  region : String
  account_id : String
  create_result : Except String String

/-- The partition selection of `LambdaStep._get_function_arn`
(lines 157–161). -/
def lambdaPartition (region : String) : String :=
  if asciiLower region == "cn-north-1" || asciiLower region == "cn-northwest-1" then "aws-cn"
  else "aws"

/-- `LambdaStep._get_function_arn` (lines 151–176): return the
pre-populated ARN if present; otherwise create the function, and on a
`ResourceConflictException`-marked error synthesize the ARN
deterministically; re-raise any other error. -/
def _get_function_arn (f : LambdaFunc) : Except String String :=
  let region := f.region
  let partition := lambdaPartition region
  match f.function_arn with
  | none =>
    (match f.create_result with
     | .ok arn => .ok arn
     | .error err =>
       if !strContains err "ResourceConflictException" then .error err
       else
         .ok ("arn:" ++ partition ++ ":lambda:" ++ region ++ ":" ++ f.account_id ++
           ":function:" ++ f.function_name))
  | some arn => .ok arn

/-- `LambdaOutputTypeEnum`. -/
inductive LambdaOutputTypeEnum where
  | string
  | integer
  | boolean
  | float
deriving DecidableEq

/-- `.value` of each enum member (`String`, `Integer`, `Boolean`,
`Float`). -/
def LambdaOutputTypeEnum.value : LambdaOutputTypeEnum → String
  | .string => "String"
  | .integer => "Integer"
  | .boolean => "Boolean"
  | .float => "Float"

/-- `LambdaOutput`: `output_name` defaults to `None`, `output_type` to
`LambdaOutputTypeEnum.String`. -/
structure LambdaOutput where
  output_name : Option String := none
  output_type : LambdaOutputTypeEnum := .string
deriving DecidableEq

/-- Values in a serialized request dictionary. -/
inductive JReq where
  | null
  | str (v : String)
  | dict (entries : List (String × JReq))
  | arr (elems : List JReq)

/-- First-match lookup in a request dictionary. -/
def rlookup (k : String) : List (String × JReq) → Option JReq
  | [] => none
  | (k', v) :: t => if k' == k then some v else rlookup k t

/-- Python `d[k] = v` on a request dictionary: replace the value of an
existing key in place, else append the new pair. -/
def dictSet (d : List (String × JReq)) (k : String) (v : JReq) :
    List (String × JReq) :=
  if d.any (fun kv => kv.1 == k) then
    d.map (fun kv => if kv.1 == k then (k, v) else kv)
  else d ++ [(k, v)]

/-- Python `d.update(c)`. -/
def dictUpdate (d : List (String × JReq)) (c : List (String × JReq)) :
    List (String × JReq) :=
  c.foldl (fun acc kv => dictSet acc kv.1 kv.2) d

/-- `LambdaOutput.to_request`:
`{"OutputName": self.output_name, "OutputType": self.output_type.value}`. -/
def LambdaOutput.to_request (o : LambdaOutput) : JReq :=
  .dict [("OutputName", match o.output_name with
                        | some n => JReq.str n
                        | none => JReq.null),
         ("OutputType", JReq.str o.output_type.value)]

/-- The fields of `LambdaStep` that `to_request` reads.  `cache_config`
holds the `.config` dict of the optional `CacheConfig` (whose class lives
outside `src/`). -/
structure LambdaStep where
  name : String
  lambda_func : LambdaFunc
  outputs : List LambdaOutput := []
  cache_config : Option (List (String × JReq)) := none
  inputs : List (String × JReq) := []

/-- `LambdaStep.to_request` (lines 138–149).  `baseRequest` is the request
dictionary produced by `super().to_request()` (the parent `Step`
abstraction lives outside `src/` and is an external collaborator per the
spec): the cache-config fields are merged in, then `FunctionArn` and
`OutputParameters` are set. -/
def LambdaStep.to_request (step : LambdaStep)
    (baseRequest : List (String × JReq)) :
    Except String (List (String × JReq)) :=
  let d0 := baseRequest
  let d1 :=
    match step.cache_config with
    | some c => dictUpdate d0 c
    | none => d0
  match _get_function_arn step.lambda_func with
  | .error e => .error e
  | .ok arn =>
    let d2 := dictSet d1 "FunctionArn" (.str arn)
    let d3 := dictSet d2 "OutputParameters"
      (.arr (step.outputs.map LambdaOutput.to_request))
    .ok d3

end LambdaStepMod

namespace ImageUris

/-- The processor-resolution procedure exactly as claim C1 states it: the
literal strings `local` and `local_gpu` resolve to `cpu`/`gpu`; any other
instance type must match the `ml[._]` pattern or fail; a resolved
processor must be in the declared set. -/
def processorCheck (p : String) (procs : List String) : Except RErr (Option String) :=
  if procs.contains p then .ok (some p)
  else .error (.invalidArg "processor" (some p) procs)

def processorClaimStated (instance_type : String) (procs : List String) :
    Except RErr (Option String) :=
  if instance_type = "local" then processorCheck "cpu" procs
  else if instance_type = "local_gpu" then processorCheck "gpu" procs
  else
    match mlFamilyMatch instance_type with
    | some family =>
      processorCheck
        (if procs.contains family then family
         else if strStarts family "inf" then "inf"
         else if family.toList.headD ' ' == 'g' || family.toList.headD ' ' == 'p' then "gpu"
         else "cpu")
        procs
    | none => .error (.invalidInstanceType instance_type)

/-- The procedure of claim C1 as amended: every instance type beginning
with `local`, other than the exact string `local`, resolves to `gpu`
(there is no separate `local_gpu` literal case and no pattern check for
such strings); the rest is unchanged. -/
def processorClaimAmended (instance_type : String) (procs : List String) :
    Except RErr (Option String) :=
  if instance_type = "local" then processorCheck "cpu" procs
  else if strStarts instance_type "local" then processorCheck "gpu" procs
  else
    match mlFamilyMatch instance_type with
    | some family =>
      processorCheck
        (if procs.contains family then family
         else if strStarts family "inf" then "inf"
         else if family.toList.headD ' ' == 'g' || family.toList.headD ' ' == 'p' then "gpu"
         else "cpu")
        procs
    | none => .error (.invalidInstanceType instance_type)

/-- The condition of the auto-select correction as the claims state it:
the instance-type family is `p4d`, or the distribution names
`smdistributed`. -/
def autoSelectCond (instance_type : String) (distribution : List String) : Prop :=
  mlFamilyMatch instance_type = some "p4d" ∨ distribution.contains "smdistributed" = true

/-- `mid` occurs as a contiguous substring of `s`. -/
def containsSubstring (s mid : String) : Prop := ∃ p q, s = p ++ mid ++ q

/-- The character `c` does not occur in `s`. -/
def noChar (s : String) (c : Char) : Prop := c ∉ s.toList

/-- Match semantics of the URI well-formedness regex
`[^.]+\.dkr\.[^/]+/[^:]+(:[^:]+)?` anchored at both ends: the string
decomposes into a dot-free registry, `.dkr.`, a slash-free hostname, `/`,
a colon-free repository and an optional colon-free `:{tag}`. -/
def uriRegexMatches (s : String) : Prop :=
  ∃ a b c : String,
    a ≠ "" ∧ noChar a '.' ∧ b ≠ "" ∧ noChar b '/' ∧ c ≠ "" ∧ noChar c ':' ∧
    (s = a ++ ".dkr." ++ b ++ "/" ++ c ∨
     ∃ d : String, d ≠ "" ∧ noChar d ':' ∧
       s = a ++ ".dkr." ++ b ++ "/" ++ c ++ ":" ++ d)

/-- The framework-config file name that `retrieve` loads for the given
arguments (the framework itself, or its training-compiler variant). -/
def effFwName (args : RetrieveArgs) : String :=
  if args.training_compiler_config then args.framework ++ "-training-compiler"
  else args.framework

/-- A concrete external region-to-ECR-hostname resolver for the test
fixtures. -/
def ecrHostFn : String → String := fun region => "ecr." ++ region ++ ".amazonaws.com"

/-- A concrete leaf version config for a `tensorflow` fixture. -/
def tfLeaf : JVal := .obj
  [("registries", .obj [("us-west-2", .s "763104351884")]),
   ("repository", .s "tensorflow-training"),
   ("py_versions", .arr ["py37"])]

/-- The scope-level config of the `tensorflow` fixture. -/
def tfScopeCfg : JVal := .obj
  [("processors", .arr ["cpu", "gpu"]),
   ("versions", .obj [("2.3", tfLeaf)])]

/-- A concrete config table declaring only a `tensorflow` training config
with the single version `2.3`, processors `cpu`/`gpu` and Python version
`py37`. -/
def tfTable : String → Option JVal := fun fw =>
  if fw = "tensorflow" then some (.obj [("training", tfScopeCfg)]) else none

/-- `tensorflow` resolution request on a `p4d` instance. -/
def tfArgsP4d : RetrieveArgs :=
  { framework := "tensorflow", region := "us-west-2",
    image_scope := some "training", instance_type := "ml.p4d.24xlarge" }

/-- `tensorflow` resolution request on a `p3` instance. -/
def tfArgsP3 : RetrieveArgs :=
  { framework := "tensorflow", region := "us-west-2",
    image_scope := some "training", instance_type := "ml.p3.2xlarge" }

/-- A concrete leaf config for a `huggingface` fixture. -/
def hfLeaf : JVal := .obj
  [("registries", .obj [("us-east-1", .s "763104351884")]),
   ("repository", .s "huggingface-pytorch-training"),
   ("py_versions", .arr ["py38"])]

/-- The version-level config of the `huggingface` fixture, nested by base
framework version, including one base framework (`mxnet1.8`) that does
not match the `pytorch|tensorflow` pattern. -/
def hfVersionCfg : JVal := .obj
  [("version_aliases", .obj [("pytorch1.9", .s "pytorch1.9.0")]),
   ("pytorch1.9.0", hfLeaf),
   ("mxnet1.8", hfLeaf)]

/-- A concrete config table declaring only a `huggingface` training config
with the single version `4.11`. -/
def hfTable : String → Option JVal := fun fw =>
  if fw = "huggingface" then
    some (.obj [("training", .obj
      [("processors", .arr ["gpu"]),
       ("versions", .obj [("4.11", hfVersionCfg)])])])
  else none

/-- `huggingface` request with the version omitted. -/
def hfArgsNone : RetrieveArgs :=
  { framework := "huggingface", region := "us-east-1",
    base_framework_version := some "pytorch1.9.0" }

/-- `huggingface` request with the sole declared version supplied. -/
def hfArgsV : RetrieveArgs :=
  { framework := "huggingface", region := "us-east-1",
    version := some "4.11", base_framework_version := some "pytorch1.9.0" }

/-- `huggingface` request whose base framework version matches neither
`pytorch` nor `tensorflow`. -/
def hfArgsCrash : RetrieveArgs :=
  { framework := "huggingface", region := "us-east-1",
    base_framework_version := some "mxnet1.8" }

/-- A config table that differs from `tblB` only away from the
training-compiler config name. -/
def tblA : String → Option JVal := fun fw =>
  if fw = "tensorflow" then some (.obj []) else none

/-- The empty config table. -/
def tblB : String → Option JVal := fun _ => none

/-- `huggingface` request with the training-compiler flag set. -/
def hfTcArgs : RetrieveArgs :=
  { framework := "huggingface", region := "us-east-1",
    training_compiler_config := true }

/-- Non-`huggingface` request with the training-compiler flag set. -/
def ptTcArgs : RetrieveArgs :=
  { framework := "pytorch", region := "us-east-1",
    training_compiler_config := true }

theorem strAppend_assoc (a b c : String) : a ++ b ++ c = a ++ (b ++ c) := by
  apply String.ext
  simp [String.data_append, List.append_assoc]

theorem procs_isEmpty_false {procs : List String} (hne : procs ≠ []) :
    procs.isEmpty = false := by
  cases procs with
  | nil => exact absurd rfl hne
  | cons a t => rfl

theorem processor_check_eq (p : String) (procs : List String) :
    (match _validate_arg (some p) procs "processor" with
     | Except.error e => Except.error e
     | Except.ok _ => (Except.ok (some p) : Except RErr (Option String))) =
    processorCheck p procs := by
  unfold _validate_arg optMem processorCheck
  by_cases h : p ∈ procs <;> simp [h]

/-- C10: every instance-type string that begins with `local` but is not
exactly `local` (for example `localhost`) resolves the processor to `gpu`
without the malformed-instance-type pattern check; only the exact string
`local` resolves to `cpu`; the resolved processor must still be in the
declared processor set. -/
theorem C10_local_processor (it : String) (procs : List String)
    (hne : procs ≠ []) (hloc : strStarts it "local" = true) :
    _processor it procs = processorCheck (if it = "local" then "cpu" else "gpu") procs := by
  have hits : it ≠ "" := by
    intro h
    subst h
    exact absurd hloc (by decide)
  have hitb : (it == "") = false := beq_eq_false_iff_ne.mpr hits
  have hpe : procs.isEmpty = false := procs_isEmpty_false hne
  unfold _processor
  simp only [hpe, hitb, Bool.and_false, Bool.false_eq_true, if_false, ite_false]
  by_cases hl : it = "local"
  · subst hl
    simp only [show strStarts "local" "local" = true from by decide,
      show (("local" : String) == "local") = true from by decide, if_true, ite_true,
      eq_self_iff_true]
    exact processor_check_eq "cpu" procs
  · have hbl : (it == "local") = false := beq_eq_false_iff_ne.mpr hl
    simp only [hloc, hbl, hl, if_true, ite_true, if_false, ite_false,
      Bool.false_eq_true, eq_self_iff_true]
    exact processor_check_eq "gpu" procs

theorem C10_witness :
    (["cpu", "gpu"] : List String) ≠ [] ∧ strStarts "localhost" "local" = true ∧
    _processor "localhost" ["cpu", "gpu"] = Except.ok (some "gpu") := by
  refine ⟨by decide, by decide, ?_⟩
  have h := C10_local_processor "localhost" ["cpu", "gpu"] (by decide) (by decide)
  rw [h]
  decide

/-- C1 (counterexample): the instance type `localhost` resolves to `gpu`,
while the claimed procedure (which special-cases only the literals
`local` and `local_gpu` and otherwise requires the `ml[._]` pattern)
fails it with InvalidArgument. -/
theorem C1_counterexample :
    _processor "localhost" ["cpu", "gpu"] = Except.ok (some "gpu") ∧
    processorClaimStated "localhost" ["cpu", "gpu"] =
      Except.error (RErr.invalidInstanceType "localhost") := by
  exact ⟨by decide, by decide⟩

/-- C1 (amended): with the `local`-prefix rule in place of the two
literals, the claimed resolution procedure is exactly `_processor` for a
non-empty declared processor set and a given instance type: `local` maps
to `cpu`, any other `local`-prefixed string to `gpu`, otherwise the
string must match `ml[._]<family>[.<size>]` (else InvalidArgument), the
family is used verbatim when declared, else `inf`-prefixed families map
to `inf`, families starting with `g`/`p` map to `gpu`, all others to
`cpu`, and the resolved processor must be in the declared set. -/
theorem C1_processor_amended (it : String) (procs : List String)
    (hne : procs ≠ []) (hits : it ≠ "") :
    _processor it procs = processorClaimAmended it procs := by
  have hitb : (it == "") = false := beq_eq_false_iff_ne.mpr hits
  have hpe : procs.isEmpty = false := procs_isEmpty_false hne
  unfold _processor processorClaimAmended
  simp only [hpe, hitb, Bool.and_false, Bool.false_eq_true, if_false, ite_false]
  by_cases hl : it = "local"
  · subst hl
    simp only [show strStarts "local" "local" = true from by decide,
      show (("local" : String) == "local") = true from by decide, if_true, ite_true,
      eq_self_iff_true]
    exact processor_check_eq "cpu" procs
  · have hbl : (it == "local") = false := beq_eq_false_iff_ne.mpr hl
    by_cases hloc : strStarts it "local" = true
    · simp only [hloc, hbl, hl, if_true, ite_true, if_false, ite_false,
        Bool.false_eq_true, eq_self_iff_true]
      exact processor_check_eq "gpu" procs
    · simp only [Bool.not_eq_true] at hloc
      simp only [hloc, hl, Bool.false_eq_true, if_false, ite_false]
      cases hm : mlFamilyMatch it with
      | none => simp [hm]
      | some family =>
        simp only [hm]
        exact processor_check_eq _ procs

theorem C1_witness :
    _processor "ml.p3.2xlarge" ["cpu", "gpu"] =
      processorClaimAmended "ml.p3.2xlarge" ["cpu", "gpu"] ∧
    processorClaimAmended "ml.p3.2xlarge" ["cpu", "gpu"] = Except.ok (some "gpu") :=
  ⟨C1_processor_amended "ml.p3.2xlarge" ["cpu", "gpu"] (by decide) (by decide), by decide⟩

/-- C4: whenever the supplied argument is not among the declared options,
`_validate_arg` raises InvalidArgument carrying exactly the declared
option list, and its message is the fixed format string that contains the
offending value and the comma-joined declared options — exactly the
declared set, no more and no fewer. -/
theorem C4_validate_arg (argName : String) (arg : Option String) (opts : List String)
    (h : optMem arg opts = false) :
    _validate_arg arg opts argName = Except.error (RErr.invalidArg argName arg opts) ∧
    (RErr.invalidArg argName arg opts).message =
      "Unsupported " ++ argName ++ ": " ++ pyStr arg ++
        ". You may need to upgrade your SDK version (pip install -U sagemaker) for newer "
        ++ argName ++ "s. Supported " ++ argName ++ "(s): " ++
        String.intercalate ", " opts ++ "." ∧
    containsSubstring ((RErr.invalidArg argName arg opts).message) (pyStr arg) ∧
    containsSubstring ((RErr.invalidArg argName arg opts).message)
      (String.intercalate ", " opts) := by
  refine ⟨by simp [_validate_arg, h], rfl, ?_, ?_⟩
  · refine ⟨"Unsupported " ++ argName ++ ": ",
      ". You may need to upgrade your SDK version (pip install -U sagemaker) for newer "
        ++ argName ++ "s. Supported " ++ argName ++ "(s): " ++
        String.intercalate ", " opts ++ ".", ?_⟩
    simp only [RErr.message, invalidArgMessage, strAppend_assoc]
  · refine ⟨"Unsupported " ++ argName ++ ": " ++ pyStr arg ++
      ". You may need to upgrade your SDK version (pip install -U sagemaker) for newer "
        ++ argName ++ "s. Supported " ++ argName ++ "(s): ", ".", ?_⟩
    simp only [RErr.message, invalidArgMessage, strAppend_assoc]

theorem C4_witness :
    optMem (some "us-bad-1") ["us-east-1", "us-west-2"] = false ∧
    _validate_arg (some "us-bad-1") ["us-east-1", "us-west-2"] "region" =
      Except.error (RErr.invalidArg "region" (some "us-bad-1") ["us-east-1", "us-west-2"]) :=
  ⟨by decide,
   (C4_validate_arg "region" (some "us-bad-1") ["us-east-1", "us-west-2"] (by decide)).1⟩

theorem mlFamilyMatch_ne_empty {it : String} {f : String}
    (h : mlFamilyMatch it = some f) : (it != "") = true := by
  cases he : it == "" with
  | false => simp [bne, he]
  | true =>
    have : it = "" := by simpa using he
    subst this
    simp [mlFamilyMatch] at h

theorem should_auto_select_iff (it : String) (dist : List String) :
    _should_auto_select_container_version it dist = true ↔ autoSelectCond it dist := by
  unfold _should_auto_select_container_version autoSelectCond
  constructor
  · intro h
    rcases Bool.or_eq_true_iff.mp h with h1 | h2
    · left
      rcases Bool.and_eq_true_iff.mp h1 with ⟨_, hm⟩
      cases hmm : mlFamilyMatch it with
      | none => simp [hmm] at hm
      | some f =>
        rw [hmm] at hm
        have hf : f = "p4d" := by simpa using hm
        rw [hf]
    · right; exact h2
  · intro h
    rcases h with h1 | h2
    · apply Bool.or_eq_true_iff.mpr
      left
      apply Bool.and_eq_true_iff.mpr
      exact ⟨mlFamilyMatch_ne_empty h1, by rw [h1]; decide⟩
    · exact Bool.or_eq_true_iff.mpr (Or.inr h2)

/-- C7: the auto-select container-version correction changes the tag only
when the instance-type family is `p4d` or the distribution names
`smdistributed`, and then only when `framework ++ "-" ++ tag` is a key of
the fixed legacy table, in which case the table's suffix is appended; in
every other case the tag is untouched. -/
theorem C7_auto_select (fw tag it : String) (dist : List String) :
    (¬ autoSelectCond it dist → _autoSelectTag fw tag it dist = tag) ∧
    (autoSelectCond it dist →
      tableLookup (fw ++ "-" ++ tag) containerVersionsTable = none →
      _autoSelectTag fw tag it dist = tag) ∧
    (∀ sfx, autoSelectCond it dist →
      tableLookup (fw ++ "-" ++ tag) containerVersionsTable = some sfx →
      _autoSelectTag fw tag it dist = tag ++ "-" ++ sfx) := by
  refine ⟨?_, ?_, ?_⟩
  · intro hno
    have hb : _should_auto_select_container_version it dist = false := by
      cases hsb : _should_auto_select_container_version it dist with
      | false => rfl
      | true => exact absurd ((should_auto_select_iff it dist).mp hsb) hno
    simp [_autoSelectTag, hb]
  · intro hyes hnone
    have hb := (should_auto_select_iff it dist).mpr hyes
    simp [_autoSelectTag, hb, hnone]
  · intro sfx hyes hsome
    have hb := (should_auto_select_iff it dist).mpr hyes
    simp [_autoSelectTag, hb, hsome]

theorem C7_witness :
    _autoSelectTag "tensorflow" "2.3-gpu-py37" "ml.p4d.24xlarge" [] =
      "2.3-gpu-py37" ++ "-" ++ "cu110-ubuntu18.04-v3" ∧
    _autoSelectTag "tensorflow" "2.3-gpu-py37" "ml.p3.2xlarge" [] = "2.3-gpu-py37" :=
  ⟨(C7_auto_select "tensorflow" "2.3-gpu-py37" "ml.p4d.24xlarge" []).2.2
     "cu110-ubuntu18.04-v3" (Or.inl (by decide)) (by decide),
   (C7_auto_select "tensorflow" "2.3-gpu-py37" "ml.p3.2xlarge" []).1
     (by intro h; rcases h with h | h <;> revert h <;> decide)⟩

end ImageUris

namespace LambdaStepMod

/-- C8: when the function descriptor carries no ARN and creation fails
with an error whose message contains the `ResourceConflictException`
marker, `_get_function_arn` returns the deterministically synthesized
ARN `arn:{partition}:lambda:{region}:{account}:function:{name}`, where
the partition is `aws-cn` exactly for the two China regions; any other
creation error propagates to the caller unchanged. -/
theorem C8_function_arn (f : LambdaFunc) (hno : f.function_arn = none) :
    (∀ e, f.create_result = Except.error e →
       strContains e "ResourceConflictException" = true →
       _get_function_arn f = Except.ok
         ("arn:" ++ lambdaPartition f.region ++ ":lambda:" ++ f.region ++ ":" ++
           f.account_id ++ ":function:" ++ f.function_name)) ∧
    (∀ e, f.create_result = Except.error e →
       strContains e "ResourceConflictException" = false →
       _get_function_arn f = Except.error e) ∧
    (lambdaPartition f.region =
      if asciiLower f.region = "cn-north-1" ∨ asciiLower f.region = "cn-northwest-1"
      then "aws-cn" else "aws") := by
  refine ⟨?_, ?_, ?_⟩
  · intro e hce hmark
    unfold _get_function_arn
    rw [hno, hce]
    simp [hmark]
  · intro e hce hmark
    unfold _get_function_arn
    rw [hno, hce]
    simp [hmark]
  · unfold lambdaPartition
    by_cases h1 : asciiLower f.region = "cn-north-1"
    · simp [h1]
    · by_cases h2 : asciiLower f.region = "cn-northwest-1"
      · simp [h1, h2]
      · simp [h1, h2, beq_eq_false_iff_ne.mpr h1, beq_eq_false_iff_ne.mpr h2]

theorem C8_witness :
    _get_function_arn
      { function_arn := none, function_name := "my-func", region := "us-west-2",
        account_id := "123456789012",
        create_result := Except.error
          "An error occurred (ResourceConflictException) when calling the CreateFunction operation" } =
      Except.ok "arn:aws:lambda:us-west-2:123456789012:function:my-func" := by
  have h := (C8_function_arn
    { function_arn := none, function_name := "my-func", region := "us-west-2",
      account_id := "123456789012",
      create_result := Except.error
        "An error occurred (ResourceConflictException) when calling the CreateFunction operation" }
    rfl).1 _ rfl (by decide)
  rw [h]
  decide

theorem rlookup_cons (k k' : String) (v : JReq) (t : List (String × JReq)) :
    rlookup k ((k', v) :: t) = if k' == k then some v else rlookup k t := rfl

theorem rlookup_map_replace (k : String) (v : JReq) (d : List (String × JReq)) :
    rlookup k (d.map (fun kv => if kv.1 == k then (k, v) else kv)) =
      (if d.any (fun kv => kv.1 == k) then some v else none) := by
  induction d with
  | nil => rfl
  | cons hd tl ih =>
    obtain ⟨k1, v1⟩ := hd
    rw [List.map_cons, List.any_cons]
    cases h : (k1 == k) with
    | true =>
      simp only [h, Bool.true_or, if_true, ite_true, eq_self_iff_true, rlookup_cons,
        beq_self_eq_true]
    | false =>
      simp only [h, Bool.false_or, Bool.false_eq_true, if_false, ite_false,
        rlookup_cons, ih]

theorem rlookup_append_single (k : String) (v : JReq) (d : List (String × JReq))
    (h : d.any (fun kv => kv.1 == k) = false) :
    rlookup k (d ++ [(k, v)]) = some v := by
  induction d with
  | nil => simp [rlookup_cons]
  | cons hd tl ih =>
    obtain ⟨k1, v1⟩ := hd
    rw [List.any_cons, Bool.or_eq_false_iff] at h
    rw [List.cons_append, rlookup_cons, h.1]
    simp only [Bool.false_eq_true, if_false, ite_false]
    exact ih h.2

theorem rlookup_dictSet_self (d : List (String × JReq)) (k : String) (v : JReq) :
    rlookup k (dictSet d k v) = some v := by
  unfold dictSet
  by_cases h : d.any (fun kv => kv.1 == k)
  · rw [if_pos h, rlookup_map_replace, if_pos h]
  · simp only [Bool.not_eq_true] at h
    rw [if_neg (by simp [h]), rlookup_append_single k v d h]

/-- C9: every successful `to_request` carries exactly one
`OutputParameters` entry per declared output, in declaration order, each
serialized as `{"OutputName": name, "OutputType": type}` with the type
value one of `String`/`Integer`/`Boolean`/`Float`, and an output
constructed without a type defaults to `String`. -/
theorem C9_to_request (step : LambdaStep) (base d : List (String × JReq))
    (h : step.to_request base = Except.ok d) :
    rlookup "OutputParameters" d =
      some (JReq.arr (step.outputs.map LambdaOutput.to_request)) ∧
    (step.outputs.map LambdaOutput.to_request).length = step.outputs.length ∧
    (∀ o ∈ step.outputs,
      LambdaOutput.to_request o =
        JReq.dict [("OutputName", match o.output_name with
                                  | some n => JReq.str n
                                  | none => JReq.null),
                   ("OutputType", JReq.str o.output_type.value)] ∧
      (o.output_type.value = "String" ∨ o.output_type.value = "Integer" ∨
       o.output_type.value = "Boolean" ∨ o.output_type.value = "Float")) ∧
    (∀ n, ({ output_name := n } : LambdaOutput).output_type.value = "String") := by
  refine ⟨?_, List.length_map _ _, ?_, fun n => rfl⟩
  · unfold LambdaStep.to_request at h
    cases harn : _get_function_arn step.lambda_func with
    | error e =>
      rw [harn] at h
      exact absurd h (by simp)
    | ok arn =>
      rw [harn] at h
      have hd : d = dictSet
          (dictSet (match step.cache_config with
                    | some c => dictUpdate base c
                    | none => base) "FunctionArn" (JReq.str arn))
          "OutputParameters" (JReq.arr (step.outputs.map LambdaOutput.to_request)) := by
        cases h
        rfl
      rw [hd, rlookup_dictSet_self]
  · intro o _
    refine ⟨rfl, ?_⟩
    cases ht : o.output_type <;> simp [LambdaOutputTypeEnum.value]

theorem C9_witness :
    LambdaStep.to_request
      { name := "step1",
        lambda_func := { function_arn := some "arn:aws:lambda:us-west-2:1:function:f",
                         function_name := "f", region := "us-west-2", account_id := "1",
                         create_result := Except.ok "unused" },
        outputs := [{ output_name := some "A" },
                    { output_name := some "B", output_type := .integer }] }
      [("Name", JReq.str "step1"), ("Type", JReq.str "Lambda")] =
      Except.ok
        [("Name", JReq.str "step1"), ("Type", JReq.str "Lambda"),
         ("FunctionArn", JReq.str "arn:aws:lambda:us-west-2:1:function:f"),
         ("OutputParameters", JReq.arr
           [JReq.dict [("OutputName", JReq.str "A"), ("OutputType", JReq.str "String")],
            JReq.dict [("OutputName", JReq.str "B"), ("OutputType", JReq.str "Integer")]])] ∧
    rlookup "OutputParameters"
        [("Name", JReq.str "step1"), ("Type", JReq.str "Lambda"),
         ("FunctionArn", JReq.str "arn:aws:lambda:us-west-2:1:function:f"),
         ("OutputParameters", JReq.arr
           [JReq.dict [("OutputName", JReq.str "A"), ("OutputType", JReq.str "String")],
            JReq.dict [("OutputName", JReq.str "B"), ("OutputType", JReq.str "Integer")]])] =
      some (JReq.arr
        [JReq.dict [("OutputName", JReq.str "A"), ("OutputType", JReq.str "String")],
         JReq.dict [("OutputName", JReq.str "B"), ("OutputType", JReq.str "Integer")]]) := by
  constructor
  · rfl
  · exact (C9_to_request
      { name := "step1",
        lambda_func := { function_arn := some "arn:aws:lambda:us-west-2:1:function:f",
                         function_name := "f", region := "us-west-2", account_id := "1",
                         create_result := Except.ok "unused" },
        outputs := [{ output_name := some "A" },
                    { output_name := some "B", output_type := .integer }] }
      [("Name", JReq.str "step1"), ("Type", JReq.str "Lambda")] _ rfl).1

end LambdaStepMod

namespace ImageUris

/-- C3: for the huggingface framework the tag prefix is
`{ptOrTfVersion}-transformers{version}`, where `ptOrTfVersion` is parsed
from the base-framework-version string by the `pytorch|tensorflow` prefix
pattern (an unstructured crash, not InvalidArgument, when the string
matches neither token), and `{version}` is the resolved version when the
resolved repository is one of the two trcomp sub-repository names and the
original caller-supplied version otherwise. -/
theorem C3_hf_tag :
    (∀ b ov v repo pt, hfPtOrTf (some b) = some pt →
       hfTagPre (some b) ov v repo =
         Except.ok (pt ++ "-transformers" ++
           (if repo = "huggingface-pytorch-trcomp-training" ∨
               repo = "huggingface-tensorflow-trcomp-training" then v else pyStr ov))) ∧
    (∀ b ov v repo, hfPtOrTf b = none →
       hfTagPre b ov v repo =
         Except.error (RErr.crash
           "base framework version does not match (pytorch|tensorflow)(.*)")) ∧
    retrieve hfTable ecrHostFn hfArgsCrash =
      Except.error (RErr.crash
        "base framework version does not match (pytorch|tensorflow)(.*)") := by
  refine ⟨?_, ?_, by decide⟩
  · intro b ov v repo pt hm
    unfold hfTagPre
    rw [hm]
    by_cases h1 : repo = "huggingface-pytorch-trcomp-training"
    · simp [h1, pyStr]
    · by_cases h2 : repo = "huggingface-tensorflow-trcomp-training"
      · simp [h1, h2, pyStr]
      · simp [h1, h2, beq_eq_false_iff_ne.mpr h1, beq_eq_false_iff_ne.mpr h2]
  · intro b ov v repo hm
    unfold hfTagPre
    rw [hm]

theorem C3_witness :
    hfPtOrTf (some "pytorch1.9.0") = some "1.9.0" ∧
    hfTagPre (some "pytorch1.9.0") (some "4.11.0") "4.17" "huggingface-pytorch-training" =
      Except.ok "1.9.0-transformers4.11.0" := by
  refine ⟨by decide, ?_⟩
  have h := C3_hf_tag.1 "pytorch1.9.0" (some "4.11.0") "4.17"
    "huggingface-pytorch-training" "1.9.0" (by decide)
  rw [h]
  decide

theorem config_for_scope_congr (tbl tbl' : String → Option JVal) (fw : String)
    (sc acc : Option String) (h : tbl fw = tbl' fw) :
    _config_for_framework_and_scope tbl fw sc acc =
      _config_for_framework_and_scope tbl' fw sc acc := by
  unfold _config_for_framework_and_scope config_for_framework
  rw [h]

/-- C5: whenever the training-compiler flag is set, resolution fails with
the "only supported with HuggingFace" InvalidArgument error unless the
framework is huggingface; when it is, the resolution reads only the
compiler-specific configuration (the `huggingface-training-compiler`
entry of the config table), so any two tables agreeing there resolve
identically. -/
theorem C5_training_compiler :
    (∀ tbl ecrHost args, args.training_compiler_config = true →
       args.framework ≠ HUGGING_FACE_FRAMEWORK →
       retrieve tbl ecrHost args = Except.error RErr.trainingCompilerUnsupported) ∧
    (∀ tbl tbl' ecrHost args, args.training_compiler_config = true →
       args.framework = HUGGING_FACE_FRAMEWORK →
       tbl (HUGGING_FACE_FRAMEWORK ++ "-training-compiler") =
         tbl' (HUGGING_FACE_FRAMEWORK ++ "-training-compiler") →
       retrieve tbl ecrHost args = retrieve tbl' ecrHost args) := by
  constructor
  · intro tbl ecrHost args htc hfw
    unfold retrieve frameworkConfig
    rw [htc]
    simp [beq_eq_false_iff_ne.mpr hfw]
  · intro tbl tbl' ecrHost args htc hfw hagree
    unfold retrieve frameworkConfig
    rw [htc, hfw]
    have h1 : (true == false) = false := rfl
    have h2 : (HUGGING_FACE_FRAMEWORK == HUGGING_FACE_FRAMEWORK) = true := by decide
    rw [h1, h2]
    simp only [Bool.false_eq_true, if_false, ite_false, if_true, ite_true,
      eq_self_iff_true]
    rw [config_for_scope_congr tbl tbl' _ _ _ hagree]

theorem C5_witness :
    retrieve tblB ecrHostFn ptTcArgs = Except.error RErr.trainingCompilerUnsupported ∧
    retrieve tblA ecrHostFn hfTcArgs = retrieve tblB ecrHostFn hfTcArgs :=
  ⟨C5_training_compiler.1 tblB ecrHostFn ptTcArgs rfl (by decide),
   C5_training_compiler.2 tblA tblB ecrHostFn hfTcArgs rfl rfl rfl⟩

end ImageUris

namespace ImageUris

theorem acceleratorScope_indep (sc sc' acc : Option String)
    (h : truthyOpt acc = true) : acceleratorScope sc acc = acceleratorScope sc' acc := by
  cases acc with
  | none => simp [truthyOpt] at h
  | some a =>
    unfold acceleratorScope
    rw [h]
    simp only [eq_self_iff_true, if_true, ite_true]

theorem acceleratorScope_falsy (sc : Option String) (acc : Option String)
    (h : truthyOpt acc = false) : acceleratorScope sc acc = Except.ok sc := by
  unfold acceleratorScope
  rw [h]
  simp only [Bool.false_eq_true, if_false, ite_false]

theorem config_scope_single (tbl : String → Option JVal) (fw : String)
    (acc : Option String) (s0 : String) (config : JVal)
    (hc : tbl fw = some config) (hs : scopesOf config = Except.ok [s0])
    (sc : Option String) :
    _config_for_framework_and_scope tbl fw sc acc =
      _config_for_framework_and_scope tbl fw (some s0) acc := by
  unfold _config_for_framework_and_scope config_for_framework
  rw [hc]
  dsimp only
  by_cases hacc : truthyOpt acc = true
  · rw [acceleratorScope_indep sc (some s0) acc hacc]
  · simp only [Bool.not_eq_true] at hacc
    rw [acceleratorScope_falsy sc acc hacc, acceleratorScope_falsy (some s0) acc hacc]
    dsimp only
    rw [hs]
    rfl

theorem retrieveWithConfig_scope_irrel (c : JVal) (ecrHost : String → String)
    (args : RetrieveArgs) (x y : Option String) :
    retrieveWithConfig c ecrHost { args with image_scope := x } =
      retrieveWithConfig c ecrHost { args with image_scope := y } := by
  cases args
  rfl

theorem frameworkConfig_version_irrel (tbl : String → Option JVal)
    (args : RetrieveArgs) (x y : Option String) :
    frameworkConfig tbl { args with version := x } =
      frameworkConfig tbl { args with version := y } := by
  cases args
  rfl

theorem tagPreArg_non_hf (fw : String) (vc : JVal) (v : String)
    (b ov ov' : Option String) (repo : String)
    (h : (fw == HUGGING_FACE_FRAMEWORK) = false) :
    tagPreArg fw vc v b ov repo = tagPreArg fw vc v b ov' repo := by
  unfold tagPreArg
  rw [h]
  simp only [Bool.false_eq_true, if_false, ite_false]

theorem retrieveWithVersion_version_irrel (config : JVal) (ecrHost : String → String)
    (args : RetrieveArgs) (x y : Option String) (v : String)
    (h : args.framework ≠ HUGGING_FACE_FRAMEWORK) :
    retrieveWithVersion config ecrHost { args with version := x } v =
      retrieveWithVersion config ecrHost { args with version := y } v := by
  obtain ⟨fw, region, version, py, it, acc, sc, cv, dist, bfv, tc⟩ := args
  have hb : (fw == HUGGING_FACE_FRAMEWORK) = false := beq_eq_false_iff_ne.mpr h
  unfold retrieveWithVersion
  dsimp only
  simp only [tagPreArg, hb, Bool.false_eq_true, if_false, ite_false]

theorem validate_version_single (config : JVal) (fw v0 : String)
    (vkvs : List (String × JVal))
    (hv : config.lookup "versions" = some (JVal.obj vkvs))
    (hk : vkvs.map Prod.fst = [v0]) :
    _validate_version_and_set_if_needed (some v0) config fw =
      _validate_version_and_set_if_needed none config fw := by
  unfold _validate_version_and_set_if_needed
  rw [hv]
  dsimp only
  rw [hk]
  cases ha : config.lookup "version_aliases" with
  | none => rfl
  | some a =>
    cases a with
    | s str => rfl
    | arr l => rfl
    | obj akvs =>
      dsimp only
      by_cases hcv : (akvs.map Prod.fst).contains v0 = true
      · simp only [optMem, hcv, Bool.not_true, Bool.and_false, Bool.false_eq_true,
          if_false, ite_false, Bool.not_false, Bool.and_true]
        have hmem : (([v0] ++ akvs.map Prod.fst).contains v0) = true := by
          simp
        simp only [_validate_arg, optMem, hmem, if_true, ite_true, eq_self_iff_true]
        rfl
      · simp only [Bool.not_eq_true] at hcv
        simp only [optMem, hcv, Bool.not_false, Bool.and_true]
        rfl

/-- C6 (amended): when a framework config declares exactly one scope,
omitting the scope argument gives the same result as supplying the sole
declared scope; for non-composite frameworks, when the config declares
exactly one version, omitting the version argument gives the same result
as supplying the sole declared version (for the composite huggingface
framework this fails: the caller-supplied version is embedded verbatim in
the tag prefix); when exactly one processor is declared and the instance
type is omitted, the processor resolves to the sole declared one. -/
theorem C6_single_defaults :
    (∀ (tbl : String → Option JVal) (ecrHost : String → String) (args : RetrieveArgs)
       (s0 : String) (config : JVal), tbl (effFwName args) = some config →
       scopesOf config = Except.ok [s0] →
       retrieve tbl ecrHost { args with image_scope := none } =
         retrieve tbl ecrHost { args with image_scope := some s0 }) ∧
    (∀ (tbl : String → Option JVal) (ecrHost : String → String) (args : RetrieveArgs)
       (v0 : String) (config : JVal) (vkvs : List (String × JVal)),
       args.framework ≠ HUGGING_FACE_FRAMEWORK →
       frameworkConfig tbl { args with version := none } = Except.ok config →
       config.lookup "versions" = some (JVal.obj vkvs) →
       vkvs.map Prod.fst = [v0] →
       retrieve tbl ecrHost { args with version := none } =
         retrieve tbl ecrHost { args with version := some v0 }) ∧
    (∀ p0 : String, _processor "" [p0] = Except.ok (some p0)) := by
  refine ⟨?_, ?_, fun p0 => rfl⟩
  · intro tbl ecrHost args s0 config hc hs
    obtain ⟨fw, region, version, py, it, acc, sc, cv, dist, bfv, tc⟩ := args
    unfold retrieve frameworkConfig
    dsimp only
    cases tc with
    | false =>
      unfold effFwName at hc
      dsimp only at hc
      simp only [beq_self_eq_true, eq_self_iff_true, if_true, ite_true]
      rw [config_scope_single tbl fw acc s0 config hc hs none]
      cases hcc : _config_for_framework_and_scope tbl fw (some s0) acc with
      | error e => rfl
      | ok c =>
        dsimp only
        exact retrieveWithConfig_scope_irrel c ecrHost
          ⟨fw, region, version, py, it, acc, sc, cv, dist, bfv, false⟩ none (some s0)
    | true =>
      unfold effFwName at hc
      dsimp only at hc
      simp only [show ((true == false) = true) = False from by simp, if_false, ite_false]
      cases hb : (fw == HUGGING_FACE_FRAMEWORK) with
      | false =>
        simp only [hb, Bool.false_eq_true, if_false, ite_false]
      | true =>
        simp only [hb, if_true, ite_true, eq_self_iff_true]
        rw [config_scope_single tbl (fw ++ "-training-compiler") acc s0 config hc hs none]
        cases hcc : _config_for_framework_and_scope tbl (fw ++ "-training-compiler")
            (some s0) acc with
        | error e => rfl
        | ok c =>
          dsimp only
          exact retrieveWithConfig_scope_irrel c ecrHost
            ⟨fw, region, version, py, it, acc, sc, cv, dist, bfv, true⟩ none (some s0)
  · intro tbl ecrHost args v0 config vkvs hfw hcfg hv hk
    have hfc2 : frameworkConfig tbl { args with version := some v0 } = Except.ok config := by
      rw [frameworkConfig_version_irrel tbl args (some v0) none]
      exact hcfg
    unfold retrieve
    rw [hcfg, hfc2]
    dsimp only
    unfold retrieveWithConfig
    dsimp only
    rw [validate_version_single config args.framework v0 vkvs hv hk]
    cases hval : _validate_version_and_set_if_needed none config args.framework with
    | error e => rfl
    | ok v =>
      dsimp only
      exact retrieveWithVersion_version_irrel config ecrHost args none (some v0) v hfw

/-- C6 (counterexample): for the composite huggingface framework with a
single declared version, omitting the version and supplying the sole
declared version give different URIs (the tag embeds `transformersNone`
versus `transformers4.11`). -/
theorem C6_counterexample :
    retrieve hfTable ecrHostFn hfArgsNone = Except.ok
      "763104351884.dkr.ecr.us-east-1.amazonaws.com/huggingface-pytorch-training:1.9.0-transformersNone-gpu-py38" ∧
    retrieve hfTable ecrHostFn hfArgsV = Except.ok
      "763104351884.dkr.ecr.us-east-1.amazonaws.com/huggingface-pytorch-training:1.9.0-transformers4.11-gpu-py38" ∧
    hfArgsV = { hfArgsNone with version := some "4.11" } ∧
    retrieve hfTable ecrHostFn hfArgsNone ≠ retrieve hfTable ecrHostFn hfArgsV := by
  refine ⟨by decide, by decide, rfl, by decide⟩

theorem C6_witness :
    retrieve tfTable ecrHostFn { tfArgsP3 with image_scope := none } =
      retrieve tfTable ecrHostFn { tfArgsP3 with image_scope := some "training" } ∧
    retrieve tfTable ecrHostFn { tfArgsP3 with version := none } =
      retrieve tfTable ecrHostFn { tfArgsP3 with version := some "2.3" } ∧
    _processor "" ["gpu"] = Except.ok (some "gpu") :=
  ⟨C6_single_defaults.1 tfTable ecrHostFn tfArgsP3 "training" (JVal.obj [("training", tfScopeCfg)])
     rfl rfl,
   C6_single_defaults.2.1 tfTable ecrHostFn tfArgsP3 "2.3" tfScopeCfg
     [("2.3", tfLeaf)] (by decide) rfl rfl rfl,
   C6_single_defaults.2.2 "gpu"⟩

end ImageUris

namespace ImageUris

theorem finalize_regex (registry hostname repo tag : String)
    (h1 : registry ≠ "") (h2 : noChar registry '.') (h3 : hostname ≠ "")
    (h4 : noChar hostname '/') (h5 : repo ≠ "") (h6 : noChar repo ':')
    (h7 : noChar tag ':') :
    uriRegexMatches (_finalize registry hostname repo tag) := by
  unfold _finalize uriRegexMatches
  by_cases ht : tag = ""
  · subst ht
    exact ⟨registry, hostname, repo, h1, h2, h3, h4, h5, h6, Or.inl rfl⟩
  · refine ⟨registry, hostname, repo, h1, h2, h3, h4, h5, h6,
      Or.inr ⟨tag, ht, h7, ?_⟩⟩
    have hb : (tag != "") = true := by
      simp [bne, beq_eq_false_iff_ne.mpr ht]
    rw [hb]
    simp only [eq_self_iff_true, if_true, ite_true, strAppend_assoc]

theorem autoSelectTag_cases (fw tag it : String) (dist : List String) :
    _autoSelectTag fw tag it dist = tag ∨
    ∃ sfx, tableLookup (fw ++ "-" ++ tag) containerVersionsTable = some sfx ∧
      _autoSelectTag fw tag it dist = tag ++ "-" ++ sfx := by
  unfold _autoSelectTag
  by_cases hs : _should_auto_select_container_version it dist = true
  · cases hl : tableLookup (fw ++ "-" ++ tag) containerVersionsTable with
    | none => left; simp [hs]
    | some sfx => right; exact ⟨sfx, rfl, by simp [hs]⟩
  · simp only [Bool.not_eq_true] at hs
    left
    simp [hs]

/-- C2 (amended): every successful `retrieve` resolves a chain of
intermediate values, each pinned to the source computation that produces
it (framework config, version, version config, huggingface descent,
Python version, registry, repository, processors, processor, container
version, tag prefix), and returns `_finalize registry hostname repo tag`
— that is, `{registry}.dkr.{hostname}/{repository}` with `:{tag}`
appended exactly when the tag is non-empty — where the tag is
`_format_tag` of exactly those resolved components, the `-`-joined
non-empty members of (tag prefix, processor, Python version, container
version) in that fixed order, possibly extended by a `-`-joined suffix
from the fixed auto-select legacy table; and whenever the resolved
registry is non-empty and dot-free, the hostname non-empty and
slash-free, the repository non-empty and colon-free and the tag
colon-free, the result matches the URI regex. -/
theorem C2_uri_shape (tbl : String → Option JVal) (ecrHost : String → String)
    (args : RetrieveArgs) (s : String)
    (h : retrieve tbl ecrHost args = Except.ok s) :
    ∃ (config vc0 vc1 : JVal) (version vkey : String) (py_version : Option String)
      (rd : JVal) (registry repo : String) (available_processors : List String)
      (processor container_version : Option String) (tagp : String),
      frameworkConfig tbl args = Except.ok config ∧
      _validate_version_and_set_if_needed args.version config args.framework =
        Except.ok version ∧
      _version_for_config version config = Except.ok vkey ∧
      (config.lookup "versions").bind (fun vs => vs.lookup vkey) = some vc0 ∧
      (if args.framework == HUGGING_FACE_FRAMEWORK then
         hfBaseConfig vc0 args.base_framework_version
       else Except.ok vc0) = Except.ok vc1 ∧
      _validate_py_version_and_set_if_needed args.py_version vc1 args.framework =
        Except.ok py_version ∧
      (pyDescend vc1 py_version).lookup "registries" = some rd ∧
      _registry_from_region args.region rd = Except.ok registry ∧
      (pyDescend vc1 py_version).lookup "repository" = some (JVal.s repo) ∧
      processorsArg config (pyDescend vc1 py_version) = Except.ok available_processors ∧
      _processor args.instance_type available_processors = Except.ok processor ∧
      containerVersionArg (pyDescend vc1 py_version) processor args.container_version =
        Except.ok container_version ∧
      tagPreArg args.framework (pyDescend vc1 py_version) version
        args.base_framework_version args.version repo = Except.ok tagp ∧
      s = _finalize registry (ecrHost args.region) repo
        (_autoSelectTag args.framework
          (_format_tag (some tagp) processor py_version container_version)
          args.instance_type args.distribution) ∧
      (_autoSelectTag args.framework
          (_format_tag (some tagp) processor py_version container_version)
          args.instance_type args.distribution =
        _format_tag (some tagp) processor py_version container_version ∨
       ∃ sfx, tableLookup (args.framework ++ "-" ++
           _format_tag (some tagp) processor py_version container_version)
           containerVersionsTable = some sfx ∧
         _autoSelectTag args.framework
           (_format_tag (some tagp) processor py_version container_version)
           args.instance_type args.distribution =
           _format_tag (some tagp) processor py_version container_version ++ "-" ++ sfx) ∧
      (registry ≠ "" → noChar registry '.' →
       ecrHost args.region ≠ "" → noChar (ecrHost args.region) '/' →
       repo ≠ "" → noChar repo ':' →
       noChar (_autoSelectTag args.framework
         (_format_tag (some tagp) processor py_version container_version)
         args.instance_type args.distribution) ':' →
       uriRegexMatches s) := by
  unfold retrieve at h
  cases h0 : frameworkConfig tbl args with
  | error e => rw [h0] at h; cases h
  | ok config =>
  rw [h0] at h
  dsimp only at h
  unfold retrieveWithConfig at h
  cases h1 : _validate_version_and_set_if_needed args.version config args.framework with
  | error e => rw [h1] at h; cases h
  | ok version =>
  rw [h1] at h
  dsimp only at h
  unfold retrieveWithVersion at h
  cases h2 : _version_for_config version config with
  | error e => rw [h2] at h; cases h
  | ok vkey =>
  rw [h2] at h
  dsimp only at h
  cases h3 : (config.lookup "versions").bind (fun vs => vs.lookup vkey) with
  | none => rw [h3] at h; cases h
  | some vc0 =>
  rw [h3] at h
  dsimp only at h
  cases h4 : (if args.framework == HUGGING_FACE_FRAMEWORK then
      hfBaseConfig vc0 args.base_framework_version else Except.ok vc0) with
  | error e => rw [h4] at h; cases h
  | ok vc1 =>
  rw [h4] at h
  dsimp only at h
  cases h5 : _validate_py_version_and_set_if_needed args.py_version vc1 args.framework with
  | error e => rw [h5] at h; cases h
  | ok py_version =>
  rw [h5] at h
  dsimp only at h
  cases h6 : (pyDescend vc1 py_version).lookup "registries" with
  | none => rw [h6] at h; cases h
  | some rd =>
  rw [h6] at h
  dsimp only at h
  cases h7 : _registry_from_region args.region rd with
  | error e => rw [h7] at h; cases h
  | ok registry =>
  rw [h7] at h
  dsimp only at h
  cases h8 : (pyDescend vc1 py_version).lookup "repository" with
  | none => rw [h8] at h; cases h
  | some repoVal =>
  rw [h8] at h
  cases repoVal with
  | arr l => dsimp only at h; cases h
  | obj kvs => dsimp only at h; cases h
  | s repo =>
  dsimp only at h
  cases h9 : processorsArg config (pyDescend vc1 py_version) with
  | error e => rw [h9] at h; cases h
  | ok available_processors =>
  rw [h9] at h
  dsimp only at h
  cases h10 : _processor args.instance_type available_processors with
  | error e => rw [h10] at h; cases h
  | ok processor =>
  rw [h10] at h
  dsimp only at h
  cases h11 : containerVersionArg (pyDescend vc1 py_version) processor
      args.container_version with
  | error e => rw [h11] at h; cases h
  | ok container_version =>
  rw [h11] at h
  dsimp only at h
  cases h12 : tagPreArg args.framework (pyDescend vc1 py_version) version
      args.base_framework_version args.version repo with
  | error e => rw [h12] at h; cases h
  | ok tagp =>
  rw [h12] at h
  dsimp only at h
  have hs : s = _finalize registry (ecrHost args.region) repo
      (_autoSelectTag args.framework
        (_format_tag (some tagp) processor py_version container_version)
        args.instance_type args.distribution) := by
    cases h
    rfl
  refine ⟨config, vc0, vc1, version, vkey, py_version, rd, registry, repo,
    available_processors, processor, container_version, tagp,
    rfl, h1, h2, h3, h4, h5, h6, h7, h8, h9, h10, h11, h12, hs, ?_, ?_⟩
  · exact autoSelectTag_cases args.framework
      (_format_tag (some tagp) processor py_version container_version)
      args.instance_type args.distribution
  · intro w1 w2 w3 w4 w5 w6 w7
    rw [hs]
    exact finalize_regex _ _ _ _ w1 w2 w3 w4 w5 w6 w7

/-- C2 (counterexample): on a `p4d` instance the auto-select correction
appends a legacy suffix, so the returned tag is not the plain 4-way join
(the resolved container version is absent, yet the tag carries the extra
`cu110-ubuntu18.04-v3` component); on a `p3` instance the same request
yields exactly the 4-way join. -/
theorem C2_counterexample :
    retrieve tfTable ecrHostFn tfArgsP4d = Except.ok
      "763104351884.dkr.ecr.us-west-2.amazonaws.com/tensorflow-training:2.3-gpu-py37-cu110-ubuntu18.04-v3" ∧
    "2.3-gpu-py37-cu110-ubuntu18.04-v3" ≠
      _format_tag (some "2.3") (some "gpu") (some "py37") none ∧
    _format_tag (some "2.3") (some "gpu") (some "py37") none = "2.3-gpu-py37" ∧
    retrieve tfTable ecrHostFn tfArgsP3 = Except.ok
      "763104351884.dkr.ecr.us-west-2.amazonaws.com/tensorflow-training:2.3-gpu-py37" := by
  refine ⟨by decide, by decide, by decide, by decide⟩

theorem C2_witness :
    ∃ (config vc0 vc1 : JVal) (version vkey : String) (py_version : Option String)
      (rd : JVal) (registry repo : String) (available_processors : List String)
      (processor container_version : Option String) (tagp : String),
      frameworkConfig tfTable tfArgsP3 = Except.ok config ∧
      _validate_version_and_set_if_needed tfArgsP3.version config tfArgsP3.framework =
        Except.ok version ∧
      _version_for_config version config = Except.ok vkey ∧
      (config.lookup "versions").bind (fun vs => vs.lookup vkey) = some vc0 ∧
      (if tfArgsP3.framework == HUGGING_FACE_FRAMEWORK then
         hfBaseConfig vc0 tfArgsP3.base_framework_version
       else Except.ok vc0) = Except.ok vc1 ∧
      _validate_py_version_and_set_if_needed tfArgsP3.py_version vc1 tfArgsP3.framework =
        Except.ok py_version ∧
      (pyDescend vc1 py_version).lookup "registries" = some rd ∧
      _registry_from_region tfArgsP3.region rd = Except.ok registry ∧
      (pyDescend vc1 py_version).lookup "repository" = some (JVal.s repo) ∧
      processorsArg config (pyDescend vc1 py_version) = Except.ok available_processors ∧
      _processor tfArgsP3.instance_type available_processors = Except.ok processor ∧
      containerVersionArg (pyDescend vc1 py_version) processor tfArgsP3.container_version =
        Except.ok container_version ∧
      tagPreArg tfArgsP3.framework (pyDescend vc1 py_version) version
        tfArgsP3.base_framework_version tfArgsP3.version repo = Except.ok tagp ∧
      "763104351884.dkr.ecr.us-west-2.amazonaws.com/tensorflow-training:2.3-gpu-py37" =
        _finalize registry (ecrHostFn tfArgsP3.region) repo
          (_autoSelectTag tfArgsP3.framework
            (_format_tag (some tagp) processor py_version container_version)
            tfArgsP3.instance_type tfArgsP3.distribution) ∧
      (_autoSelectTag tfArgsP3.framework
          (_format_tag (some tagp) processor py_version container_version)
          tfArgsP3.instance_type tfArgsP3.distribution =
        _format_tag (some tagp) processor py_version container_version ∨
       ∃ sfx, tableLookup (tfArgsP3.framework ++ "-" ++
           _format_tag (some tagp) processor py_version container_version)
           containerVersionsTable = some sfx ∧
         _autoSelectTag tfArgsP3.framework
           (_format_tag (some tagp) processor py_version container_version)
           tfArgsP3.instance_type tfArgsP3.distribution =
           _format_tag (some tagp) processor py_version container_version ++ "-" ++ sfx) ∧
      (registry ≠ "" → noChar registry '.' →
       ecrHostFn tfArgsP3.region ≠ "" → noChar (ecrHostFn tfArgsP3.region) '/' →
       repo ≠ "" → noChar repo ':' →
       noChar (_autoSelectTag tfArgsP3.framework
         (_format_tag (some tagp) processor py_version container_version)
         tfArgsP3.instance_type tfArgsP3.distribution) ':' →
       uriRegexMatches
         "763104351884.dkr.ecr.us-west-2.amazonaws.com/tensorflow-training:2.3-gpu-py37") :=
  C2_uri_shape tfTable ecrHostFn tfArgsP3
    "763104351884.dkr.ecr.us-west-2.amazonaws.com/tensorflow-training:2.3-gpu-py37"
    (by decide)

end ImageUris
